import Mathlib

/-!
Verification development for the `dynamic_roles_nextjs` client SDK.

The definitions below are a shallow embedding of `src/client.ts` (the
session-aware revision, the one the repository ships in `dist/client.js`),
`src/hooks/index.ts` and `src/types.ts`.  Stateful pieces (the axios
interceptors, the singleton client handle, the React hook state triplets)
are modelled as explicit state-passing functions; the browser environment
(`window`, `localStorage`, `sessionStorage`, `document.cookie`) is an
explicit value, with `none` standing for `typeof window === 'undefined'`.
JavaScript builtins used by the source (`String.prototype.split`,
`String.prototype.trim`, `decodeURIComponent`, the `||` and `??`
operators) are modelled by small executable functions whose JS-truthiness
behaviour matters to several claims.
-/

namespace DynamicRoles

/-- Model of the JS `a || b` operator for `a : string`-typed values:
returns `b` when `a` is the empty string (falsy), else `a`. -/
def jsOrStrS (a b : String) : String :=
  if a = "" then b else a

/-- Model of the JS `a || b` operator where `a : string | null | undefined`
and `b : string`: falls through to `b` on `null`/`undefined` and on the
empty string. -/
def jsOrStr (a : Option String) (b : String) : String :=
  match a with
  | none => b
  | some s => if s = "" then b else s

/-- Model of the JS `a || b` operator where both operands are
`string | null` (as in `localStorage.getItem(k) || sessionStorage.getItem(k)`). -/
def jsOrOpt (a b : Option String) : Option String :=
  match a with
  | none => b
  | some s => if s = "" then b else some s

/-- JS truthiness of a `string | null` value: `null`/`undefined` and the
empty string are falsy. -/
def truthy : Option String → Bool
  | none => false
  | some s => s != ""

/-- Whitespace recognised by the model of `String.prototype.trim`
(the source only ever trims cookie fragments, which use plain spaces). -/
def isJsSpace (c : Char) : Bool :=
  c == ' ' || c == '\t' || c == '\n' || c == '\r'

/-- Model of `String.prototype.trim`. -/
def jsTrim (s : String) : String :=
  String.mk (((s.data.dropWhile isJsSpace).reverse.dropWhile isJsSpace).reverse)

/-- Accumulator loop behind `jsSplit`. -/
def jsSplitAux (sep : Char) : List Char → List Char → List String
  | [], acc => [String.mk acc.reverse]
  | c :: rest, acc =>
      if c = sep then String.mk acc.reverse :: jsSplitAux sep rest []
      else jsSplitAux sep rest (c :: acc)

/-- Model of `String.prototype.split` with a one-character separator:
`jsSplit sep s` never returns `[]`, and `jsSplit sep "" = [""]`, as in JS. -/
def jsSplit (sep : Char) (s : String) : List String :=
  jsSplitAux sep s.data []

/-- Value of a hexadecimal digit character (code points 48-57 are the
decimal digits, 97-102 and 65-70 the lower- and upper-case letters). -/
def hexVal (c : Char) : Option Nat :=
  let n := c.toNat
  if 48 ≤ n ∧ n ≤ 57 then some (n - 48)
  else if 97 ≤ n ∧ n ≤ 102 then some (n - 87)
  else if 65 ≤ n ∧ n ≤ 70 then some (n - 55)
  else none

/-- Character-level percent-decoding loop behind `decodeURIComponent`. -/
def percentDecode : List Char → List Char
  | [] => []
  | '%' :: a :: b :: rest =>
      match hexVal a, hexVal b with
      | some x, some y => Char.ofNat (16 * x + y) :: percentDecode rest
      | _, _ => '%' :: percentDecode (a :: b :: rest)
  | c :: rest => c :: percentDecode rest

/-- Model of the JS builtin `decodeURIComponent` on the inputs the claims
exercise: `%XX` escapes are decoded to the corresponding code point and all
other characters pass through.  (The builtin additionally reassembles
multi-byte UTF-8 escape sequences and throws on malformed ones; no claim
involves such inputs.) -/
def decodeURIComponent (s : String) : String :=
  String.mk (percentDecode s.data)

/-- The source calls `decodeURIComponent(value)` where `value` may be
`undefined` (a cookie fragment with no `=`); JS coerces `undefined` to the
string `"undefined"` before decoding. -/
def decodeURIComponentJs (v : Option String) : String :=
  decodeURIComponent (v.getD "undefined")

/-- A web-storage area (`localStorage` / `sessionStorage`): a list of
key/value entries. -/
structure Storage where
  entries : List (String × String)
deriving DecidableEq

/-- Model of `Storage.prototype.getItem`: the stored string or `null`. -/
def Storage.getItem (s : Storage) (k : String) : Option String :=
  (s.entries.find? (fun p => p.1 == k)).map (·.2)

/-- Model of `Storage.prototype.removeItem`. -/
def Storage.removeItem (s : Storage) (k : String) : Storage :=
  ⟨s.entries.filter (fun p => p.1 != k)⟩

/-- The browser environment visible to the client: both storages and the
raw `document.cookie` string. -/
structure Browser where
  localStorage : Storage
  sessionStorage : Storage
  cookie : String
deriving DecidableEq

/-- `typeof window !== 'undefined'` is modelled by `some browser`;
`none` is a non-browser (SSR) environment. -/
abbrev Env := Option Browser

/-- The two authentication methods of `types.ts` (`AuthMethod`). -/
inductive AuthMethod
  | token
  | session
deriving DecidableEq

/-- `SessionAuthConfig` from `types.ts`: every field is optional. -/
structure SessionAuthConfig where
  csrfTokenUrl : Option String := none
  csrfCookieName : Option String := none
  csrfHeaderName : Option String := none
  withCredentials : Option Bool := none
  sanctumPath : Option String := none
deriving DecidableEq

/-- `DynamicRolesConfig` from `types.ts`, restricted to the fields the
claims exercise (`apiVersion`, `headers`, `timeout`, `retryAttempts` and
`cache` only feed axios construction and are not observed by any claim). -/
structure DynamicRolesConfig where
  apiBaseUrl : String
  authMethod : Option AuthMethod := none
  sessionAuth : Option SessionAuthConfig := none
deriving DecidableEq

/-- The constructor's resolved `this.config` after merging the defaults
with the user config by object spread. -/
structure ResolvedConfig where
  apiBaseUrl : String
  authMethod : AuthMethod
  sessionAuth : Option SessionAuthConfig
deriving DecidableEq

/-- The default `sessionAuth` object installed by the constructor. -/
def defaultSessionAuth : SessionAuthConfig :=
  { csrfTokenUrl := some "/sanctum/csrf-cookie"
    csrfCookieName := some "XSRF-TOKEN"
    csrfHeaderName := some "X-XSRF-TOKEN"
    withCredentials := some true
    sanctumPath := some "/sanctum" }

/-- The constructor's `this.config = { ...defaults, ...config }`: a
user-supplied `authMethod`/`sessionAuth` replaces the default wholesale. -/
def mkConfig (c : DynamicRolesConfig) : ResolvedConfig :=
  { apiBaseUrl := c.apiBaseUrl
    authMethod := c.authMethod.getD .token
    sessionAuth := some (c.sessionAuth.getD defaultSessionAuth) }

/-- The use-site expression `this.config.sessionAuth?.csrfCookieName || 'XSRF-TOKEN'`. -/
def ResolvedConfig.cookieNameOf (cfg : ResolvedConfig) : String :=
  jsOrStr (cfg.sessionAuth.bind (·.csrfCookieName)) "XSRF-TOKEN"

/-- The use-site expression `this.config.sessionAuth?.csrfHeaderName || 'X-XSRF-TOKEN'`. -/
def ResolvedConfig.headerNameOf (cfg : ResolvedConfig) : String :=
  jsOrStr (cfg.sessionAuth.bind (·.csrfHeaderName)) "X-XSRF-TOKEN"

/-- The request interceptor's `this.config.sessionAuth?.withCredentials ?? true`
(nullish coalescing: an explicit `false` is kept). -/
def ResolvedConfig.withCredentialsOf (cfg : ResolvedConfig) : Bool :=
  (cfg.sessionAuth.bind (·.withCredentials)).getD true

/-- The mutable per-instance field `this.csrfToken`. -/
structure ClientState where
  csrfToken : Option String := none
deriving DecidableEq

/-- `DynamicRolesClient.getAuthToken`:
`localStorage.getItem('auth_token') || sessionStorage.getItem('auth_token')`
inside a browser, `null` otherwise. -/
def getAuthToken (env : Env) : Option String :=
  match env with
  | none => none
  | some b => jsOrOpt (b.localStorage.getItem "auth_token") (b.sessionStorage.getItem "auth_token")

/-- The trimmed-and-split fragments of one `document.cookie` entry
(`cookie.trim().split('=')`). -/
def cookieParts (c : String) : List String :=
  jsSplit '=' (jsTrim c)

/-- The destructured `name` of a cookie fragment: `split('=')[0]`. -/
def cookieNameOfFragment (c : String) : String :=
  (cookieParts c).headD ""

/-- The destructured `value` of a cookie fragment: `split('=')[1]`, which
is `undefined` (here `none`) when the fragment has no `=`, and which drops
everything after a second `=`. -/
def cookieValueOfFragment (c : String) : Option String :=
  (cookieParts c)[1]?

/-- `DynamicRolesClient.getCsrfToken`: `null` outside a browser; else scan
`document.cookie.split(';')` for the first fragment whose name equals the
configured cookie name and return the URI-decoded value; else fall back to
the cached `this.csrfToken`. -/
def getCsrfToken (cfg : ResolvedConfig) (st : ClientState) (env : Env) : Option String :=
  match env with
  | none => none
  | some b =>
      match (jsSplit ';' b.cookie).findSome? (fun c =>
          if cookieNameOfFragment c = cfg.cookieNameOf
          then some (decodeURIComponentJs (cookieValueOfFragment c))
          else none) with
      | some v => some v
      | none => st.csrfToken

/-- `DynamicRolesClient.fetchCsrfToken`.  The external
`axios.get(baseUrl + csrfUrl)` call is modelled by its two observable
effects: whether it succeeded (`refreshOk`) and the browser environment
after it (`envAfter`, carrying any cookies the server set).  On success
the cached token is reassigned from `getCsrfToken`; on failure the method
only logs a warning and leaves all state unchanged. -/
def fetchCsrfToken (cfg : ResolvedConfig) (st : ClientState) (env : Env)
    (refreshOk : Bool) (envAfter : Env) : ClientState × Env :=
  if cfg.authMethod ≠ .session then (st, env)
  else if refreshOk then
    ({ st with csrfToken := getCsrfToken cfg st envAfter }, envAfter)
  else (st, env)

/-- `DynamicRolesClient.ensureCsrfToken`: fetch only when session auth is
configured and `getCsrfToken()` is falsy. -/
def ensureCsrfToken (cfg : ResolvedConfig) (st : ClientState) (env : Env)
    (refreshOk : Bool) (envAfter : Env) : ClientState × Env :=
  if cfg.authMethod = .session ∧ truthy (getCsrfToken cfg st env) = false then
    fetchCsrfToken cfg st env refreshOk envAfter
  else (st, env)

/-- A header map, as the plain JS object axios passes to the request
interceptor (`config.headers[name] = value` overwrites or inserts). -/
structure Headers where
  entries : List (String × String)
deriving DecidableEq

/-- Reading a header back (object property lookup). -/
def Headers.get (h : Headers) (k : String) : Option String :=
  (h.entries.find? (fun p => p.1 == k)).map (·.2)

/-- `config.headers[k] = v`: overwrite an existing key, else append. -/
def Headers.set (h : Headers) (k v : String) : Headers :=
  if h.entries.any (fun p => p.1 == k)
  then ⟨h.entries.map (fun p => if p.1 == k then (k, v) else p)⟩
  else ⟨h.entries ++ [(k, v)]⟩

/-- The HTTP verbs the client issues. -/
inductive HttpMethod
  | get
  | post
  | put
  | delete
deriving DecidableEq

/-- An outgoing request as seen by the request interceptor. -/
structure Request where
  method : HttpMethod
  path : String
  headers : Headers
  withCredentials : Bool := false
deriving DecidableEq

/-- The request interceptor of `setupInterceptors`.  Token mode: attach
`Authorization: Bearer <token>` when `getAuthToken()` is truthy.  Session
mode: `ensureCsrfToken()` (whose external fetch is modelled by
`refreshOk`/`envAfter`), then attach the configured CSRF header when
`getCsrfToken()` is truthy, and force `withCredentials`.  Note that the
interceptor never inspects `config.method`. -/
def requestInterceptor (cfg : ResolvedConfig) (st : ClientState) (env : Env)
    (refreshOk : Bool) (envAfter : Env) (req : Request) : Request × ClientState × Env :=
  match cfg.authMethod with
  | .token =>
      let token := getAuthToken env
      let req' :=
        match token with
        | some t => if t ≠ "" then { req with headers := req.headers.set "Authorization" ("Bearer " ++ t) } else req
        | none => req
      (req', st, env)
  | .session =>
      let p := ensureCsrfToken cfg st env refreshOk envAfter
      let tok := getCsrfToken cfg p.1 p.2
      let req' :=
        match tok with
        | some t => if t ≠ "" then { req with headers := req.headers.set cfg.headerNameOf t } else req
        | none => req
      ({ req' with withCredentials := cfg.withCredentialsOf }, p.1, p.2)

/-- The `data` object of a failed response (`error.response.data`). -/
structure ErrBody where
  message : Option String := none
  errors : Option (List (String × List String)) := none
deriving DecidableEq

/-- `error.response` of an axios error: present exactly when the server
answered. -/
structure ErrResponse where
  status : Nat
  body : ErrBody := {}
deriving DecidableEq

/-- An axios rejection as the response interceptor receives it:
`message` is the transport error's message, `response` the server
response if any, and `configPresent` the truthiness of `error.config`
(the original request object). -/
structure JsError where
  message : String
  response : Option ErrResponse := none
  configPresent : Bool := true
deriving DecidableEq

/-- `ApiError` from `types.ts`. -/
structure ApiError where
  message : String
  status : Nat
  errors : Option (List (String × List String)) := none
deriving DecidableEq

/-- The `apiError` object built at the top of the response interceptor:
`message: error.response?.data?.message || error.message`,
`status: error.response?.status || 500`,
`errors: error.response?.data?.errors`. -/
def mkApiError (e : JsError) : ApiError :=
  { message := jsOrStr (e.response.bind (fun r => r.body.message)) e.message
    status :=
      match e.response with
      | none => 500
      | some r => if r.status = 0 then 500 else r.status
    errors := e.response.bind (fun r => r.body.errors) }

/-- `error.response?.status`. -/
def errStatus (e : JsError) : Option Nat :=
  e.response.map (·.status)

/-- The wire-level outcome of one request attempt. -/
inductive HttpResult (α : Type)
  | ok (r : α)
  | err (e : JsError)
deriving DecidableEq

/-- One entry of a request/response trace: the result of the attempt,
plus — for the CSRF-refresh path a 419 triggers — whether the refresh
request succeeded and the browser environment after it. -/
structure Attempt (α : Type) where
  result : HttpResult α
  refreshOk : Bool := true
  envAfterRefresh : Env := none
deriving DecidableEq

/-- How a call through the client finally settles.  `pending` is reached
only when the supplied trace is shorter than the number of wire requests
the client issues. -/
inductive Outcome (α : Type)
  | resolved (r : α)
  | rejected (e : ApiError)
  | pending
deriving DecidableEq

/-- The response-interceptor loop of `setupInterceptors`, unfolded over a
trace of wire attempts.  A success resolves.  A failure builds `apiError`;
when session auth is configured and `error.response?.status === 419` the
client runs `fetchCsrfToken()` and, if `getCsrfToken()` is then truthy and
`error.config` is present, re-issues the request
(`return this.api.request(originalRequest)`) — whose own outcome passes
through this same interceptor, so consecutive 419s chain; otherwise it
rejects with `apiError`.  The first component counts wire requests
issued. -/
def processResponses (cfg : ResolvedConfig) :
    ClientState → Env → List (Attempt α) → Nat × Outcome α
  | _, _, [] => (0, .pending)
  | st, env, a :: rest =>
      match a.result with
      | .ok r => (1, .resolved r)
      | .err e =>
          let apiErr := mkApiError e
          if cfg.authMethod = .session ∧ errStatus e = some 419 then
            let p := fetchCsrfToken cfg st env a.refreshOk a.envAfterRefresh
            let tok := getCsrfToken cfg p.1 p.2
            if truthy tok = true ∧ e.configPresent = true then
              let q := processResponses cfg p.1 p.2 rest
              (q.1 + 1, q.2)
            else (1, .rejected apiErr)
          else (1, .rejected apiErr)

/-- `ApiResponse` from `types.ts`: the JSON envelope every endpoint
returns. -/
structure ApiResponse (α : Type) where
  data : α
  message : Option String := none
  status : Bool := true
deriving DecidableEq

/-- Every client method ends with `return response.data.data`: the `data`
field of the envelope. -/
def extractData (r : ApiResponse α) : α :=
  r.data

/-- The single HTTP request a client method hands to `this.api`: verb,
path, and query parameters (already serialized, as axios does for the
`params` option). -/
structure Call where
  method : HttpMethod
  path : String
  params : List (String × String) := []
deriving DecidableEq

/-- `getUrls(page, perPage)`: GET `/urls` with `{ page, per_page: perPage }`. -/
def getUrlsCall (page perPage : Nat) : Call :=
  { method := .get, path := "/urls", params := [("page", toString page), ("per_page", toString perPage)] }

/-- `getUrls()` with both JS default parameters (`page = 1, perPage = 15`). -/
def getUrlsCallDefault : Call :=
  getUrlsCall 1 15

/-- `getUrl(id)`. -/
def getUrlCall (id : Nat) : Call :=
  { method := .get, path := "/urls/" ++ toString id }

/-- `createUrl(data)`. -/
def createUrlCall : Call :=
  { method := .post, path := "/urls" }

/-- `updateUrl(id, data)`. -/
def updateUrlCall (id : Nat) : Call :=
  { method := .put, path := "/urls/" ++ toString id }

/-- `deleteUrl(id)`. -/
def deleteUrlCall (id : Nat) : Call :=
  { method := .delete, path := "/urls/" ++ toString id }

/-- `assignUrlPermissions(urlId, data)`. -/
def assignUrlPermissionsCall (urlId : Nat) : Call :=
  { method := .post, path := "/urls/" ++ toString urlId ++ "/permissions" }

/-- `getRolePermissions(roleId)`. -/
def getRolePermissionsCall (roleId : Nat) : Call :=
  { method := .get, path := "/roles/" ++ toString roleId ++ "/permissions" }

/-- `assignRolePermissions(roleId, data)`. -/
def assignRolePermissionsCall (roleId : Nat) : Call :=
  { method := .post, path := "/roles/" ++ toString roleId ++ "/permissions" }

/-- `removeRolePermission(roleId, permissionId)`. -/
def removeRolePermissionCall (roleId permissionId : Nat) : Call :=
  { method := .delete, path := "/roles/" ++ toString roleId ++ "/permissions/" ++ toString permissionId }

/-- `getMenus()`. -/
def getMenusCall : Call :=
  { method := .get, path := "/menus" }

/-- `getMenu(id)`. -/
def getMenuCall (id : Nat) : Call :=
  { method := .get, path := "/menus/" ++ toString id }

/-- `createMenu(data)`. -/
def createMenuCall : Call :=
  { method := .post, path := "/menus" }

/-- `updateMenu(id, data)`. -/
def updateMenuCall (id : Nat) : Call :=
  { method := .put, path := "/menus/" ++ toString id }

/-- `deleteMenu(id)`. -/
def deleteMenuCall (id : Nat) : Call :=
  { method := .delete, path := "/menus/" ++ toString id }

/-- `checkPermission(permission, url)`. -/
def checkPermissionCall : Call :=
  { method := .post, path := "/check-permission" }

/-- `getPermissionLogs(page, perPage)`: GET `/permission-logs` with
`{ page, per_page: perPage }`. -/
def getPermissionLogsCall (page perPage : Nat) : Call :=
  { method := .get, path := "/permission-logs", params := [("page", toString page), ("per_page", toString perPage)] }

/-- `getPermissionLogs()` with both JS default parameters. -/
def getPermissionLogsCallDefault : Call :=
  getPermissionLogsCall 1 15

/-- `getUserPermissions()`. -/
def getUserPermissionsCall : Call :=
  { method := .get, path := "/permissions" }

/-- `getUserRoles()`. -/
def getUserRolesCall : Call :=
  { method := .get, path := "/roles" }

/-- `getUserMenus()`. -/
def getUserMenusCall : Call :=
  { method := .get, path := "/menus" }

/-- `clearCache()`. -/
def clearCacheCall : Call :=
  { method := .post, path := "/cache/clear" }

/-- `refreshCache()`. -/
def refreshCacheCall : Call :=
  { method := .post, path := "/cache/refresh" }

/-- `DynamicRolesClient.healthCheck`: wrap the GET `/health` call in
`try/catch` — the envelope's `data` on success, `false` on any failure;
the method itself never rejects. -/
def healthCheck (result : Except ApiError (ApiResponse Bool)) : Bool :=
  match result with
  | .ok r => r.data
  | .error _ => false

/-- `DynamicRolesClient.removeAuthToken`: delete `auth_token` from both
storages when a browser is present, do nothing otherwise. -/
def removeAuthTokenEnv : Env → Env
  | none => none
  | some b => some { b with
      localStorage := b.localStorage.removeItem "auth_token"
      sessionStorage := b.sessionStorage.removeItem "auth_token" }

/-- `DynamicRolesClient.logout`.  `result` is the settled outcome of
`await this.api.post('/logout')`.  Session mode clears the cached
`csrfToken` on success and (in the catch block) on failure; token mode
runs `removeAuthToken()` on success and on failure; a failure is
re-thrown after clearing. -/
def logout (cfg : ResolvedConfig) (st : ClientState) (env : Env)
    (result : Except ApiError Unit) : ClientState × Env × Except ApiError Unit :=
  match cfg.authMethod, result with
  | .session, .ok _ => ({ st with csrfToken := none }, env, .ok ())
  | .token, .ok _ => (st, removeAuthTokenEnv env, .ok ())
  | .session, .error e => ({ st with csrfToken := none }, env, .error e)
  | .token, .error e => (st, removeAuthTokenEnv env, .error e)

/-- A constructed `DynamicRolesClient` instance: its resolved config and
its mutable `csrfToken` field. -/
structure ClientInstance where
  config : ResolvedConfig
  state : ClientState
deriving DecidableEq

/-- `new DynamicRolesClient(config)` followed by the `initializeSession()`
await inside `createClient` (which reruns `fetchCsrfToken` when the user
config asked for session auth); the external fetch is again modelled by
`refreshOk`/`envAfter`. -/
def newClient (cfg : DynamicRolesConfig) (env : Env) (refreshOk : Bool)
    (envAfter : Env) : ClientInstance :=
  let rc := mkConfig cfg
  let st0 : ClientState := {}
  if cfg.authMethod = some .session then
    { config := rc, state := (fetchCsrfToken rc st0 env refreshOk envAfter).1 }
  else
    { config := rc, state := st0 }

/-- The module-level `createClient`: unconditionally overwrite the
singleton `clientInstance` handle with a freshly constructed client. -/
def createClient (handle : Option ClientInstance) (cfg : DynamicRolesConfig)
    (env : Env) (refreshOk : Bool) (envAfter : Env) : Option ClientInstance :=
  let _ := handle
  some (newClient cfg env refreshOk envAfter)

/-- The module-level `getClient`: throw when the handle was never set,
else return the instance it holds. -/
def getClientE : Option ClientInstance → Except String ClientInstance
  | none => .error "DynamicRolesClient not initialized. Call createClient() first."
  | some c => .ok c

/-- The arguments of one `createClient` call (config plus the ambient
browser environment and CSRF-fetch outcome). -/
structure CreateCall where
  cfg : DynamicRolesConfig
  env : Env := none
  refreshOk : Bool := true
  envAfter : Env := none
deriving DecidableEq

/-- Replay a sequence of `createClient` calls against the initially-null
module handle. -/
def runCreates (calls : List CreateCall) : Option ClientInstance :=
  calls.foldl (fun h c => createClient h c.cfg c.env c.refreshOk c.envAfter) none

/-- The `useState` triplet held by each data-fetching hook. -/
structure HookState (α : Type) where
  data : α
  loading : Bool
  error : Option String
deriving DecidableEq

/-- The state visible while the fetch is in flight, after the leading
`setLoading(true); setError(null)`. -/
def hookStart (s : HookState α) : HookState α :=
  { s with loading := true, error := none }

/-- One completed fetch of `usePermissions` / `useRoles` / `useMenus`
(and of the non-paginated part of the other hooks): on success store the
client's value; on failure store `err.message || fallback`; `finally`
clears `loading`. -/
def hookFetch (s : HookState α) (result : Except ApiError α) (fallback : String) :
    HookState α :=
  let mid := hookStart s
  match result with
  | .ok d => { mid with data := d, loading := false }
  | .error e => { mid with error := some (jsOrStrS e.message fallback), loading := false }

/-- `PaginatedResponse` from `types.ts` (`from`/`to` renamed to dodge the
Lean keyword). -/
structure Paginated (α : Type) where
  data : List α
  current_page : Nat
  last_page : Nat
  per_page : Nat
  total : Nat
  from_ : Nat
  to_ : Nat
deriving DecidableEq

/-- One completed fetch of `useUrls`: on success the hook stores
`data.data` — the rows of the returned page, not the page itself. -/
def useUrlsFetch (s : HookState (List α)) (result : Except ApiError (Paginated α)) :
    HookState (List α) :=
  let mid := hookStart s
  match result with
  | .ok p => { mid with data := p.data, loading := false }
  | .error e => { mid with error := some (jsOrStrS e.message "Failed to fetch URLs"), loading := false }

/-- Concrete fixture: a client configured for session auth with all
session defaults. -/
def cfgSessionFx : ResolvedConfig :=
  mkConfig { apiBaseUrl := "http://api.test", authMethod := some .session }

/-- Concrete fixture: a client left on the default token auth. -/
def cfgTokenFx : ResolvedConfig :=
  mkConfig { apiBaseUrl := "http://api.test" }

/-- Concrete fixture: a browser whose cookie jar holds a CSRF cookie. -/
def browserFx : Browser :=
  { localStorage := ⟨[]⟩, sessionStorage := ⟨[]⟩, cookie := "XSRF-TOKEN=tok" }

/-- Concrete fixture: an axios rejection carrying a 419 response. -/
def err419Fx : JsError :=
  { message := "Request failed with status code 419"
    response := some { status := 419, body := { message := some "CSRF token mismatch." } } }

/-- Concrete fixture: a 419 attempt whose CSRF refresh succeeds and leaves
the CSRF cookie in place. -/
def attempt419Fx : Attempt Bool :=
  { result := .err err419Fx, refreshOk := true, envAfterRefresh := some browserFx }

/-- Concrete fixture: a successful attempt resolving to `true`. -/
def attemptOkFx : Attempt Bool :=
  { result := .ok true }

/-- Concrete fixture: a GET request with no headers yet. -/
def reqGetFx : Request :=
  { method := .get, path := "/menus", headers := ⟨[]⟩ }

/-- Concrete fixture: a browser whose only stored `auth_token` is the
empty string (in `sessionStorage`). -/
def envEmptyTokenFx : Env :=
  some { localStorage := ⟨[]⟩, sessionStorage := ⟨[("auth_token", "")]⟩, cookie := "" }

/-- Concrete fixture: a CSRF cookie whose value itself contains `=`. -/
def browserEqPairFx : Browser :=
  { localStorage := ⟨[]⟩, sessionStorage := ⟨[]⟩, cookie := "XSRF-TOKEN=abc=def" }

/-- Concrete fixture: a browser with no matching CSRF cookie. -/
def browserPlainFx : Browser :=
  { localStorage := ⟨[]⟩, sessionStorage := ⟨[]⟩, cookie := "a=1" }

/-- Concrete fixture: a CSRF cookie preceded by an unrelated cookie and
carrying a percent-escape. -/
def browserPctFx : Browser :=
  { localStorage := ⟨[]⟩, sessionStorage := ⟨[]⟩, cookie := "a=1; XSRF-TOKEN=q%20r" }

/-- Concrete fixture: an empty page of URL rows. -/
def pageAFx : Paginated Nat :=
  { data := [], current_page := 1, last_page := 1, per_page := 15, total := 0, from_ := 0, to_ := 0 }

/-- Concrete fixture: a page equal to `pageAFx` except for its `total`. -/
def pageBFx : Paginated Nat :=
  { pageAFx with total := 42 }

/-- Concrete fixture: an idle hook state. -/
def hookStateFx : HookState (List Nat) :=
  { data := [], loading := false, error := none }

/-- Concrete fixture: tokens stored in both storages. -/
def browserTwoTokensFx : Browser :=
  { localStorage := ⟨[("auth_token", "tk1")]⟩, sessionStorage := ⟨[("auth_token", "tk2")]⟩, cookie := "" }

/-- Concrete fixture: a token stored in `sessionStorage` only. -/
def browserSessionTokenFx : Browser :=
  { localStorage := ⟨[]⟩, sessionStorage := ⟨[("auth_token", "tk2")]⟩, cookie := "" }

/-- Concrete fixture: a 503 response with no body message. -/
def errNoMsgFx : JsError :=
  { message := "timeout", response := some { status := 503 } }

/-- Concrete fixture: a 422 response whose body message is the empty string. -/
def errEmptyMsgFx : JsError :=
  { message := "transport", response := some { status := 422, body := { message := some "" } } }

end DynamicRoles

open DynamicRoles

/-- C1 counterexample.  The claim caps retries at exactly one per failed
request, so a logical request whose first attempt fails with 419 issues at
most two wire requests.  Under session auth with a CSRF cookie available,
the trace 419 / 419 / success issues three wire requests — the response
interceptor has no once-guard, so the second 419 (itself already a retry)
is retried again — refuting "retries the original request exactly once". -/
theorem c1_419_retry_counterexample :
    processResponses cfgSessionFx {} (some browserFx) [attempt419Fx, attempt419Fx, attemptOkFx]
      = (3, Outcome.resolved true) := by
  decide

/-- C1 amended.  (1) Under token auth a failed attempt is rejected at
once, never retried.  (2) A failure whose status is not 419 is rejected at
once, never retried.  (3) Under session auth, a 419 failure is retried
(one more wire request, recursively subject to the same rule) whenever the
CSRF token read after `fetchCsrfToken` is truthy and the original request
object is present.  (4) Under session auth, a 419 failure without such a
token (or without the original request) is rejected at once. -/
theorem c1_419_retry_amended :
    (∀ (α : Type) (cfg : ResolvedConfig) (st : ClientState) (env : Env)
        (a : Attempt α) (rest : List (Attempt α)) (e : JsError),
        cfg.authMethod = AuthMethod.token → a.result = HttpResult.err e →
        processResponses cfg st env (a :: rest) = (1, Outcome.rejected (mkApiError e))) ∧
    (∀ (α : Type) (cfg : ResolvedConfig) (st : ClientState) (env : Env)
        (a : Attempt α) (rest : List (Attempt α)) (e : JsError),
        a.result = HttpResult.err e → ¬ errStatus e = some 419 →
        processResponses cfg st env (a :: rest) = (1, Outcome.rejected (mkApiError e))) ∧
    (∀ (α : Type) (cfg : ResolvedConfig) (st : ClientState) (env : Env)
        (a : Attempt α) (rest : List (Attempt α)) (e : JsError),
        cfg.authMethod = AuthMethod.session → a.result = HttpResult.err e →
        errStatus e = some 419 →
        truthy (getCsrfToken cfg
          (fetchCsrfToken cfg st env a.refreshOk a.envAfterRefresh).1
          (fetchCsrfToken cfg st env a.refreshOk a.envAfterRefresh).2) = true →
        e.configPresent = true →
        processResponses cfg st env (a :: rest) =
          ((processResponses cfg
              (fetchCsrfToken cfg st env a.refreshOk a.envAfterRefresh).1
              (fetchCsrfToken cfg st env a.refreshOk a.envAfterRefresh).2 rest).1 + 1,
            (processResponses cfg
              (fetchCsrfToken cfg st env a.refreshOk a.envAfterRefresh).1
              (fetchCsrfToken cfg st env a.refreshOk a.envAfterRefresh).2 rest).2)) ∧
    (∀ (α : Type) (cfg : ResolvedConfig) (st : ClientState) (env : Env)
        (a : Attempt α) (rest : List (Attempt α)) (e : JsError),
        cfg.authMethod = AuthMethod.session → a.result = HttpResult.err e →
        errStatus e = some 419 →
        ¬ (truthy (getCsrfToken cfg
              (fetchCsrfToken cfg st env a.refreshOk a.envAfterRefresh).1
              (fetchCsrfToken cfg st env a.refreshOk a.envAfterRefresh).2) = true ∧
            e.configPresent = true) →
        processResponses cfg st env (a :: rest) = (1, Outcome.rejected (mkApiError e))) := by
  refine ⟨?_, ?_, ?_, ?_⟩
  · intro α cfg st env a rest e hcfg hres
    simp [processResponses, hres, hcfg]
  · intro α cfg st env a rest e hres h419
    simp [processResponses, hres, h419]
  · intro α cfg st env a rest e hcfg hres h419 htok hcp
    simp only [processResponses, hres, hcfg, h419]
    rw [if_pos ⟨trivial, trivial⟩, if_pos ⟨htok, hcp⟩]
  · intro α cfg st env a rest e hcfg hres h419 hn
    simp only [processResponses, hres, hcfg, h419]
    rw [if_pos ⟨trivial, trivial⟩, if_neg hn]

/-- Witness for `c1_419_retry_amended`, instantiating each conjunct at
concrete traces: a token-auth failure rejects without retry, a non-419
failure rejects without retry, and a session-auth 419 with an available
refreshed token consumes one extra wire attempt. -/
theorem c1_419_retry_amended_witness :
    processResponses cfgTokenFx {} none [({ result := HttpResult.err err419Fx } : Attempt Bool)]
        = (1, Outcome.rejected (mkApiError err419Fx)) ∧
    processResponses cfgSessionFx {} (some browserFx)
        [({ result := HttpResult.err { message := "boom", response := some { status := 500 } } } : Attempt Bool)]
        = (1, Outcome.rejected (mkApiError { message := "boom", response := some { status := 500 } })) ∧
    processResponses cfgSessionFx {} (some browserFx) [attempt419Fx, attemptOkFx] =
      ((processResponses cfgSessionFx
          (fetchCsrfToken cfgSessionFx {} (some browserFx) attempt419Fx.refreshOk attempt419Fx.envAfterRefresh).1
          (fetchCsrfToken cfgSessionFx {} (some browserFx) attempt419Fx.refreshOk attempt419Fx.envAfterRefresh).2
          [attemptOkFx]).1 + 1,
        (processResponses cfgSessionFx
          (fetchCsrfToken cfgSessionFx {} (some browserFx) attempt419Fx.refreshOk attempt419Fx.envAfterRefresh).1
          (fetchCsrfToken cfgSessionFx {} (some browserFx) attempt419Fx.refreshOk attempt419Fx.envAfterRefresh).2
          [attemptOkFx]).2) :=
  ⟨c1_419_retry_amended.1 Bool cfgTokenFx {} none _ [] err419Fx (by decide) rfl,
   c1_419_retry_amended.2.1 Bool cfgSessionFx {} (some browserFx) _ [] _ rfl (by decide),
   c1_419_retry_amended.2.2.1 Bool cfgSessionFx {} (some browserFx) attempt419Fx [attemptOkFx]
     err419Fx (by decide) rfl (by decide) (by decide) (by decide)⟩

/-- C2 counterexample.  The claim restricts the CSRF header to mutating
requests (POST/PUT/DELETE) only, but the request interceptor never
inspects the request method: a plain GET under session auth with an
available CSRF token also receives the `X-XSRF-TOKEN` header. -/
theorem c2_csrf_header_counterexample :
    reqGetFx.method = HttpMethod.get ∧
    (requestInterceptor cfgSessionFx {} (some browserFx) true none reqGetFx).1.headers.get
      "X-XSRF-TOKEN" = some "tok" := by
  decide

/-- C2 amended.  Under session auth the interceptor attaches the
configured CSRF header (default `X-XSRF-TOKEN`) with the current token to
every request — regardless of its method — whenever `getCsrfToken()` after
`ensureCsrfToken()` is a non-empty string; when that token is null or
empty the headers are left unchanged; and the headers produced never
depend on the request method. -/
theorem c2_csrf_header_amended :
    (∀ (cfg : ResolvedConfig) (st : ClientState) (env : Env) (rOk : Bool)
        (envA : Env) (req : Request) (t : String),
        cfg.authMethod = AuthMethod.session →
        getCsrfToken cfg (ensureCsrfToken cfg st env rOk envA).1
          (ensureCsrfToken cfg st env rOk envA).2 = some t →
        t ≠ "" →
        (requestInterceptor cfg st env rOk envA req).1 =
          { req with headers := req.headers.set cfg.headerNameOf t,
                     withCredentials := cfg.withCredentialsOf }) ∧
    (∀ (cfg : ResolvedConfig) (st : ClientState) (env : Env) (rOk : Bool)
        (envA : Env) (req : Request),
        cfg.authMethod = AuthMethod.session →
        (getCsrfToken cfg (ensureCsrfToken cfg st env rOk envA).1
            (ensureCsrfToken cfg st env rOk envA).2 = none ∨
          getCsrfToken cfg (ensureCsrfToken cfg st env rOk envA).1
            (ensureCsrfToken cfg st env rOk envA).2 = some "") →
        (requestInterceptor cfg st env rOk envA req).1 =
          { req with withCredentials := cfg.withCredentialsOf }) ∧
    (∀ (cfg : ResolvedConfig) (st : ClientState) (env : Env) (rOk : Bool)
        (envA : Env) (req : Request) (m : HttpMethod),
        (requestInterceptor cfg st env rOk envA { req with method := m }).1.headers =
          (requestInterceptor cfg st env rOk envA req).1.headers) := by
  refine ⟨?_, ?_, ?_⟩
  · intro cfg st env rOk envA req t hcfg htok ht
    simp only [requestInterceptor, hcfg, htok]
    rw [if_pos ht]
  · intro cfg st env rOk envA req hcfg hf
    rcases hf with hf | hf
    · simp only [requestInterceptor, hcfg, hf]
    · simp only [requestInterceptor, hcfg, hf]
      rw [if_neg (by simp)]
  · intro cfg st env rOk envA req m
    obtain ⟨base, am, sa⟩ := cfg
    cases am
    · cases h : getAuthToken env with
      | none => simp [requestInterceptor, h]
      | some t =>
          by_cases ht : t = "" <;> simp [requestInterceptor, h, ht]
    · cases h : getCsrfToken ⟨base, .session, sa⟩
        (ensureCsrfToken ⟨base, .session, sa⟩ st env rOk envA).1
        (ensureCsrfToken ⟨base, .session, sa⟩ st env rOk envA).2 with
      | none => simp [requestInterceptor, h]
      | some t =>
          by_cases ht : t = "" <;> simp [requestInterceptor, h, ht]

/-- Witness for `c2_csrf_header_amended`: with the session fixture and the
CSRF cookie present the GET fixture request comes back with the default
header attached; with no cookie and no cached token the headers are left
unchanged; and swapping the fixture request's method to POST leaves the
computed headers identical. -/
theorem c2_csrf_header_amended_witness :
    (requestInterceptor cfgSessionFx {} (some browserFx) true none reqGetFx).1 =
      { reqGetFx with headers := reqGetFx.headers.set cfgSessionFx.headerNameOf "tok",
                      withCredentials := cfgSessionFx.withCredentialsOf } ∧
    (requestInterceptor cfgSessionFx {} none false none reqGetFx).1 =
      { reqGetFx with withCredentials := cfgSessionFx.withCredentialsOf } ∧
    (requestInterceptor cfgSessionFx {} (some browserFx) true none
        { reqGetFx with method := HttpMethod.post }).1.headers =
      (requestInterceptor cfgSessionFx {} (some browserFx) true none reqGetFx).1.headers :=
  ⟨c2_csrf_header_amended.1 cfgSessionFx {} (some browserFx) true none reqGetFx "tok"
      (by decide) (by decide) (by decide),
   c2_csrf_header_amended.2.1 cfgSessionFx {} none false none reqGetFx
      (by decide) (Or.inl (by decide)),
   c2_csrf_header_amended.2.2 cfgSessionFx {} (some browserFx) true none reqGetFx
      HttpMethod.post⟩

/-- C3 counterexample.  The claim says every failed HTTP request is
rejected as a typed `ApiError`.  But under session auth a 419 failure
whose CSRF refresh yields a token is transparently re-issued, and when the
retry succeeds the caller's promise resolves: the failed request is never
rejected at all. -/
theorem c3_api_error_counterexample :
    processResponses cfgSessionFx {} (some browserFx) [attempt419Fx, attemptOkFx]
      = (2, Outcome.resolved true) := by
  decide

/-- C3 amended.  Whenever the client rejects, it rejects with the
`ApiError` built by the response interceptor: its `message` is the server
response's `message` when that is present and non-empty, and otherwise —
whether the response is absent, or present with its `message` absent or
empty — the transport error's message; its `status` is the response's
(non-zero) status and 500 when no response exists; its `errors` field is
copied from the response body.  Every failure outside the session-auth
419 path is rejected that way, and a hook stores exactly that message
whenever it is non-empty. -/
theorem c3_api_error_amended :
    (∀ (e : JsError) (r : ErrResponse) (m : String),
        e.response = some r → r.body.message = some m → m ≠ "" →
        (mkApiError e).message = m) ∧
    (∀ (e : JsError) (r : ErrResponse),
        e.response = some r →
        (r.body.message = none ∨ r.body.message = some "") →
        (mkApiError e).message = e.message) ∧
    (∀ e : JsError, e.response = none →
        mkApiError e = { message := e.message, status := 500, errors := none }) ∧
    (∀ (e : JsError) (r : ErrResponse),
        e.response = some r → ¬ r.status = 0 → (mkApiError e).status = r.status) ∧
    (∀ (e : JsError) (r : ErrResponse),
        e.response = some r → (mkApiError e).errors = r.body.errors) ∧
    (∀ (α : Type) (cfg : ResolvedConfig) (st : ClientState) (env : Env)
        (a : Attempt α) (rest : List (Attempt α)) (e : JsError),
        a.result = HttpResult.err e →
        ¬ (cfg.authMethod = AuthMethod.session ∧ errStatus e = some 419) →
        processResponses cfg st env (a :: rest) = (1, Outcome.rejected (mkApiError e))) ∧
    (∀ (α : Type) (s : HookState α) (e : ApiError) (fb : String),
        e.message ≠ "" →
        (hookFetch s (Except.error e) fb).error = some e.message) := by
  refine ⟨?_, ?_, ?_, ?_, ?_, ?_, ?_⟩
  · intro e r m hresp hm hne
    simp [mkApiError, jsOrStr, hresp, hm, hne]
  · intro e r hresp hm
    rcases hm with hm | hm <;> simp [mkApiError, jsOrStr, hresp, hm]
  · intro e hresp
    simp [mkApiError, jsOrStr, hresp]
  · intro e r hresp hs
    simp [mkApiError, hresp, hs]
  · intro e r hresp
    simp [mkApiError, hresp]
  · intro α cfg st env a rest e hres hn
    simp only [processResponses, hres]
    rw [if_neg hn]
  · intro α s e fb hne
    simp [hookFetch, hookStart, jsOrStrS, hne]

/-- Witness for `c3_api_error_amended`: the 419 fixture error maps to an
`ApiError` carrying the server's message and status; a 503 response with
no body message and a 422 response with an empty body message both fall
back to the transport message; a transport-only error maps to status 500
with its own message; a 503-failure under the session fixture is rejected
with exactly that `ApiError`; and a hook shown the 419 error stores its
message verbatim. -/
theorem c3_api_error_amended_witness :
    (mkApiError err419Fx).message = "CSRF token mismatch." ∧
    (mkApiError errNoMsgFx).message = "timeout" ∧
    (mkApiError errEmptyMsgFx).message = "transport" ∧
    mkApiError { message := "Network Error" } =
      { message := "Network Error", status := 500, errors := none } ∧
    (mkApiError err419Fx).status = 419 ∧
    (mkApiError err419Fx).errors = none ∧
    processResponses cfgSessionFx {} (some browserFx)
        [({ result := HttpResult.err { message := "boom5", response := some { status := 503 } } } : Attempt Bool)]
      = (1, Outcome.rejected (mkApiError { message := "boom5", response := some { status := 503 } })) ∧
    (hookFetch hookStateFx (Except.error (mkApiError err419Fx)) "Failed to fetch URLs").error
      = some "CSRF token mismatch." :=
  ⟨c3_api_error_amended.1 err419Fx { status := 419, body := { message := some "CSRF token mismatch." } }
      "CSRF token mismatch." rfl rfl (by decide),
   c3_api_error_amended.2.1 errNoMsgFx { status := 503 } rfl (Or.inl rfl),
   c3_api_error_amended.2.1 errEmptyMsgFx
      { status := 422, body := { message := some "" } } rfl (Or.inr rfl),
   c3_api_error_amended.2.2.1 { message := "Network Error" } rfl,
   c3_api_error_amended.2.2.2.1 err419Fx { status := 419, body := { message := some "CSRF token mismatch." } }
      rfl (by decide),
   c3_api_error_amended.2.2.2.2.1 err419Fx { status := 419, body := { message := some "CSRF token mismatch." } }
      rfl,
   c3_api_error_amended.2.2.2.2.2.1 Bool cfgSessionFx {} (some browserFx) _ []
      { message := "boom5", response := some { status := 503 } } rfl (by decide),
   by
    have h := c3_api_error_amended.2.2.2.2.2.2 (List Nat) hookStateFx (mkApiError err419Fx)
      "Failed to fetch URLs" (by decide)
    simpa using h⟩

/-- C4 counterexample.  The claim makes the Authorization header present
exactly when `getAuthToken` returns a non-null token.  With an empty
string stored under `auth_token` (here in `sessionStorage`),
`getAuthToken` returns the non-null `""`, yet JS truthiness in
`if (token)` means no Authorization header is attached. -/
theorem c4_bearer_header_counterexample :
    getAuthToken envEmptyTokenFx = some "" ∧
    (requestInterceptor cfgTokenFx {} envEmptyTokenFx true none reqGetFx).1.headers.get
      "Authorization" = none := by
  decide

/-- C4 amended.  Under token auth the Authorization header is set to
`"Bearer " ++ token` exactly when `getAuthToken` returns a non-empty
token, and the request is otherwise passed through untouched;
`getAuthToken` itself prefers `localStorage` over `sessionStorage`
whenever the `localStorage` entry is non-empty, falls through to
`sessionStorage` when it is absent or empty, and is null outside a
browser. -/
theorem c4_bearer_header_amended :
    (∀ (cfg : ResolvedConfig) (st : ClientState) (env : Env) (rOk : Bool)
        (envA : Env) (req : Request) (t : String),
        cfg.authMethod = AuthMethod.token →
        getAuthToken env = some t → t ≠ "" →
        (requestInterceptor cfg st env rOk envA req).1 =
          { req with headers := req.headers.set "Authorization" ("Bearer " ++ t) }) ∧
    (∀ (cfg : ResolvedConfig) (st : ClientState) (env : Env) (rOk : Bool)
        (envA : Env) (req : Request),
        cfg.authMethod = AuthMethod.token →
        (getAuthToken env = none ∨ getAuthToken env = some "") →
        (requestInterceptor cfg st env rOk envA req).1 = req) ∧
    (∀ (b : Browser) (t : String),
        b.localStorage.getItem "auth_token" = some t → t ≠ "" →
        getAuthToken (some b) = some t) ∧
    (∀ b : Browser,
        (b.localStorage.getItem "auth_token" = none ∨
          b.localStorage.getItem "auth_token" = some "") →
        getAuthToken (some b) = b.sessionStorage.getItem "auth_token") ∧
    getAuthToken none = none := by
  refine ⟨?_, ?_, ?_, ?_, rfl⟩
  · intro cfg st env rOk envA req t hcfg htok ht
    simp only [requestInterceptor, hcfg, htok]
    rw [if_pos ht]
  · intro cfg st env rOk envA req hcfg hf
    rcases hf with hf | hf
    · simp only [requestInterceptor, hcfg, hf]
    · simp only [requestInterceptor, hcfg, hf]
      rw [if_neg (by simp)]
  · intro b t hloc ht
    simp [getAuthToken, jsOrOpt, hloc, ht]
  · intro b hf
    rcases hf with hf | hf <;> simp [getAuthToken, jsOrOpt, hf]

/-- Witness for `c4_bearer_header_amended`: a browser holding
`auth_token = "tk1"` in `localStorage` and `"tk2"` in `sessionStorage`
gets `Authorization: Bearer tk1`; the empty-`localStorage` fixture passes
through untouched; and the precedence conjuncts evaluated on the same
browsers. -/
theorem c4_bearer_header_amended_witness :
    (requestInterceptor cfgTokenFx {} (some browserTwoTokensFx) true none reqGetFx).1 =
      { reqGetFx with headers := reqGetFx.headers.set "Authorization" ("Bearer " ++ "tk1") } ∧
    (requestInterceptor cfgTokenFx {} envEmptyTokenFx true none reqGetFx).1 = reqGetFx ∧
    getAuthToken (some browserTwoTokensFx) = some "tk1" ∧
    getAuthToken (some browserSessionTokenFx) =
      browserSessionTokenFx.sessionStorage.getItem "auth_token" :=
  ⟨c4_bearer_header_amended.1 cfgTokenFx {} (some browserTwoTokensFx) true none reqGetFx
      "tk1" rfl (by decide) (by decide),
   c4_bearer_header_amended.2.1 cfgTokenFx {} envEmptyTokenFx true none reqGetFx
      rfl (Or.inr (by decide)),
   c4_bearer_header_amended.2.2.1 browserTwoTokensFx "tk1" (by decide) (by decide),
   c4_bearer_header_amended.2.2.2.1 browserSessionTokenFx (Or.inl (by decide))⟩

/-- C5 counterexample.  For `useUrls` the stored data state is the `data`
field of the returned page, not "the client's returned value": two
distinct pages differing only in their pagination metadata leave the hook
in identical states, so the data state cannot equal the returned value. -/
theorem c5_hook_triplet_counterexample :
    useUrlsFetch hookStateFx (Except.ok pageAFx) = useUrlsFetch hookStateFx (Except.ok pageBFx) ∧
    pageAFx ≠ pageBFx := by
  decide

/-- C5 amended.  During a fetch the triplet shows `loading = true`,
`error = null` and the previous data; after a successful fetch the data
state equals the client's returned value (for `useUrls`, the `data` field
of the returned page), `error` is null and `loading` is false; after a
failed fetch the data state is unchanged, `error` holds the thrown error's
message (or the hook's fixed fallback string when that message is empty)
and `loading` is false. -/
theorem c5_hook_triplet_amended :
    (∀ (α : Type) (s : HookState α),
        (hookStart s).loading = true ∧ (hookStart s).error = none ∧
        (hookStart s).data = s.data) ∧
    (∀ (α : Type) (s : HookState α) (d : α) (fb : String),
        hookFetch s (Except.ok d) fb = { data := d, loading := false, error := none }) ∧
    (∀ (α : Type) (s : HookState α) (e : ApiError) (fb : String),
        hookFetch s (Except.error e) fb =
          { data := s.data, loading := false, error := some (jsOrStrS e.message fb) }) ∧
    (∀ (α : Type) (s : HookState (List α)) (p : Paginated α),
        useUrlsFetch s (Except.ok p) = { data := p.data, loading := false, error := none }) ∧
    (∀ (α : Type) (s : HookState (List α)) (e : ApiError),
        useUrlsFetch s (Except.error e) =
          { data := s.data, loading := false,
            error := some (jsOrStrS e.message "Failed to fetch URLs") }) :=
  ⟨fun _ _ => ⟨rfl, rfl, rfl⟩,
   fun _ _ _ _ => rfl,
   fun _ _ _ _ => rfl,
   fun _ _ _ => rfl,
   fun _ _ _ => rfl⟩

/-- Auxiliary: a fold of `createClient` calls started from an
already-populated handle always ends populated (each call writes `some`). -/
theorem runCreates_aux_some :
    ∀ (l : List CreateCall) (inst : ClientInstance),
      ∃ j, l.foldl (fun h c => createClient h c.cfg c.env c.refreshOk c.envAfter) (some inst) = some j := by
  intro l
  induction l with
  | nil => exact fun inst => ⟨inst, rfl⟩
  | cons c rest ih =>
      intro inst
      simpa [createClient] using ih (newClient c.cfg c.env c.refreshOk c.envAfter)

/-- C6 confirmed.  With no `createClient` call the module handle is still
null and `getClient` throws exactly the documented error; after any
sequence of calls ending in `c`, `getClient` returns the instance built by
`c`; and the error arises exactly when the sequence is empty. -/
theorem c6_singleton_handle :
    getClientE (runCreates []) =
      Except.error "DynamicRolesClient not initialized. Call createClient() first." ∧
    (∀ (calls : List CreateCall) (c : CreateCall),
        getClientE (runCreates (calls ++ [c])) =
          Except.ok (newClient c.cfg c.env c.refreshOk c.envAfter)) ∧
    (∀ calls : List CreateCall,
        getClientE (runCreates calls) =
            Except.error "DynamicRolesClient not initialized. Call createClient() first." ↔
          calls = []) := by
  refine ⟨rfl, ?_, ?_⟩
  · intro calls c
    simp [runCreates, List.foldl_append, createClient, getClientE]
  · intro calls
    constructor
    · intro h
      cases calls with
      | nil => rfl
      | cons c rest =>
          exfalso
          obtain ⟨j, hj⟩ := runCreates_aux_some rest (newClient c.cfg c.env c.refreshOk c.envAfter)
          rw [runCreates, List.foldl_cons] at h
          have : getClientE (some j) =
              Except.error "DynamicRolesClient not initialized. Call createClient() first." := by
            rw [← hj]
            exact h
          simp [getClientE] at this
    · intro h
      subst h
      rfl

/-- C7 confirmed.  The method/path table of the client's URL, role, menu,
permission-check, user and cache methods, the `page`/`per_page` query
parameters of `getUrls` and `getPermissionLogs` with their defaults 1 and
15, and the envelope projection `response.data.data` every method returns. -/
theorem c7_endpoint_table :
    getUrlsCallDefault = getUrlsCall 1 15 ∧
    getUrlsCallDefault.params = [("page", "1"), ("per_page", "15")] ∧
    getPermissionLogsCallDefault = getPermissionLogsCall 1 15 ∧
    getPermissionLogsCallDefault.params = [("page", "1"), ("per_page", "15")] ∧
    (∀ p pp : Nat, getUrlsCall p pp =
        { method := HttpMethod.get, path := "/urls",
          params := [("page", toString p), ("per_page", toString pp)] }) ∧
    (∀ p pp : Nat, getPermissionLogsCall p pp =
        { method := HttpMethod.get, path := "/permission-logs",
          params := [("page", toString p), ("per_page", toString pp)] }) ∧
    getUrlCall 7 = { method := HttpMethod.get, path := "/urls/7" } ∧
    createUrlCall = { method := HttpMethod.post, path := "/urls" } ∧
    updateUrlCall 7 = { method := HttpMethod.put, path := "/urls/7" } ∧
    deleteUrlCall 7 = { method := HttpMethod.delete, path := "/urls/7" } ∧
    assignUrlPermissionsCall 7 = { method := HttpMethod.post, path := "/urls/7/permissions" } ∧
    getRolePermissionsCall 3 = { method := HttpMethod.get, path := "/roles/3/permissions" } ∧
    assignRolePermissionsCall 3 = { method := HttpMethod.post, path := "/roles/3/permissions" } ∧
    removeRolePermissionCall 3 9 =
      { method := HttpMethod.delete, path := "/roles/3/permissions/9" } ∧
    getMenusCall = { method := HttpMethod.get, path := "/menus" } ∧
    getMenuCall 5 = { method := HttpMethod.get, path := "/menus/5" } ∧
    createMenuCall = { method := HttpMethod.post, path := "/menus" } ∧
    updateMenuCall 5 = { method := HttpMethod.put, path := "/menus/5" } ∧
    deleteMenuCall 5 = { method := HttpMethod.delete, path := "/menus/5" } ∧
    checkPermissionCall = { method := HttpMethod.post, path := "/check-permission" } ∧
    getUserPermissionsCall = { method := HttpMethod.get, path := "/permissions" } ∧
    getUserRolesCall = { method := HttpMethod.get, path := "/roles" } ∧
    getUserMenusCall = { method := HttpMethod.get, path := "/menus" } ∧
    clearCacheCall = { method := HttpMethod.post, path := "/cache/clear" } ∧
    refreshCacheCall = { method := HttpMethod.post, path := "/cache/refresh" } ∧
    (∀ (β : Type) (r : ApiResponse β), extractData r = r.data) :=
 by
  and_intros
  all_goals intros
  all_goals rfl

/-- C8 confirmed.  `healthCheck` is a total function into `Bool`: its
`try/catch` returns the envelope's `data` field on success and `false` on
every failure, so it never rejects. -/
theorem c8_health_check_total :
    (∀ r : ApiResponse Bool, healthCheck (Except.ok r) = r.data) ∧
    (∀ e : ApiError, healthCheck (Except.error e) = false) :=
  ⟨fun _ => rfl, fun _ => rfl⟩

/-- Auxiliary: a `find?` for a key over entries filtered to exclude that
key finds nothing. -/
theorem find?_filter_ne_key (k : String) :
    ∀ l : List (String × String),
      (l.filter (fun p => p.1 != k)).find? (fun p => p.1 == k) = none := by
  intro l
  induction l with
  | nil => rfl
  | cons p rest ih =>
      rw [List.filter_cons]
      cases hb : p.1 == k with
      | true =>
          have hb' : (p.1 != k) = false := by simp [bne, hb]
          rw [if_neg (by simp [hb'])]
          exact ih
      | false =>
          have hb' : (p.1 != k) = true := by simp [bne, hb]
          rw [if_pos hb', List.find?_cons_of_neg _ (by simp [hb])]
          exact ih

/-- Auxiliary: removing a key from a storage makes `getItem` on that key
null. -/
theorem getItem_removeItem (s : Storage) (k : String) :
    (s.removeItem k).getItem k = none := by
  obtain ⟨l⟩ := s
  simp [Storage.getItem, Storage.removeItem, find?_filter_ne_key]

/-- C9 confirmed.  `logout` clears the local credential state on both the
success and the failure path before surfacing the result: in session mode
the cached `csrfToken` field ends up null and the browser state is
untouched; in token mode `auth_token` is removed from both storages; in
both modes a failed POST is re-thrown unchanged after clearing. -/
theorem c9_logout_clears_credentials :
    (∀ (cfg : ResolvedConfig) (st : ClientState) (env : Env) (res : Except ApiError Unit),
        cfg.authMethod = AuthMethod.session →
        logout cfg st env res = ({ st with csrfToken := none }, env, res)) ∧
    (∀ (cfg : ResolvedConfig) (st : ClientState) (b : Browser) (res : Except ApiError Unit),
        cfg.authMethod = AuthMethod.token →
        logout cfg st (some b) res = (st, removeAuthTokenEnv (some b), res) ∧
          ∃ b', removeAuthTokenEnv (some b) = some b' ∧
            b'.localStorage.getItem "auth_token" = none ∧
            b'.sessionStorage.getItem "auth_token" = none) := by
  constructor
  · intro cfg st env res hcfg
    obtain ⟨base, am, sa⟩ := cfg
    cases am
    · simp at hcfg
    · cases res with
      | ok u => cases u; rfl
      | error e => rfl
  · intro cfg st b res hcfg
    obtain ⟨base, am, sa⟩ := cfg
    cases am
    case session => simp at hcfg
    case token =>
      constructor
      · cases res with
        | ok u => cases u; rfl
        | error e => rfl
      · exact ⟨_, rfl, getItem_removeItem _ _, getItem_removeItem _ _⟩

/-- Witness for `c9_logout_clears_credentials`: a failing logout under the
session fixture still nulls the cached token and re-throws; a successful
logout under the token fixture leaves both storages without `auth_token`. -/
theorem c9_logout_clears_credentials_witness :
    logout cfgSessionFx { csrfToken := some "tok" } (some browserFx)
        (Except.error (mkApiError err419Fx)) =
      ({ csrfToken := none }, some browserFx, Except.error (mkApiError err419Fx)) ∧
    (logout cfgTokenFx {} (some browserTwoTokensFx) (Except.ok ()) =
        ({}, removeAuthTokenEnv (some browserTwoTokensFx), Except.ok ()) ∧
      ∃ b', removeAuthTokenEnv (some browserTwoTokensFx) = some b' ∧
        b'.localStorage.getItem "auth_token" = none ∧
        b'.sessionStorage.getItem "auth_token" = none) :=
  ⟨c9_logout_clears_credentials.1 cfgSessionFx { csrfToken := some "tok" } (some browserFx)
      (Except.error (mkApiError err419Fx)) rfl,
   c9_logout_clears_credentials.2 cfgTokenFx {} browserTwoTokensFx (Except.ok ()) rfl⟩

/-- Auxiliary: `findSome?` over a list where the function yields nothing
everywhere is `none`. -/
theorem findSome?_eq_none_of {α β : Type} (f : α → Option β) :
    ∀ l : List α, (∀ x ∈ l, f x = none) → l.findSome? f = none := by
  intro l
  induction l with
  | nil => intro _; rfl
  | cons a rest ih =>
      intro h
      rw [List.findSome?_cons, h a (by simp)]
      exact ih (fun x hx => h x (by simp [hx]))

/-- Auxiliary: `findSome?` over `pre ++ c :: post` where the function
yields nothing on `pre` and `some v` at `c` is `some v`. -/
theorem findSome?_append_first {α β : Type} (f : α → Option β) :
    ∀ (pre : List α) (c : α) (post : List α) (v : β),
      (∀ x ∈ pre, f x = none) → f c = some v →
      (pre ++ c :: post).findSome? f = some v := by
  intro pre
  induction pre with
  | nil =>
      intro c post v _ hc
      rw [List.nil_append, List.findSome?_cons, hc]
  | cons a rest ih =>
      intro c post v h hc
      rw [List.cons_append, List.findSome?_cons, h a (by simp)]
      exact ih c post v (fun x hx => h x (by simp [hx])) hc

/-- C10 counterexample.  A cookie whose value itself contains `=`
(`XSRF-TOKEN=abc=def`): the destructuring `[name, value] = split('=')`
keeps only the part before the second `=`, so `getCsrfToken` returns
`"abc"` instead of the full URI-decoded value `"abc=def"`. -/
theorem c10_cookie_parse_counterexample :
    getCsrfToken cfgSessionFx {} (some browserEqPairFx) = some "abc" ∧
    decodeURIComponent "abc=def" = "abc=def" ∧
    ("abc" : String) ≠ "abc=def" := by
  decide

/-- C10 amended.  Outside a browser `getCsrfToken` is null regardless of
the cached field.  With a browser, when no `;`-separated cookie fragment
has the configured cookie name (after trimming, up to the first `=`), the
cached `csrfToken` field is returned.  When some fragment matches, the
result is the URI-decoding of that first matching fragment's value — the
segment between the first and second `=`, with a missing value decoded as
the literal string `"undefined"`. -/
theorem c10_cookie_parse_amended :
    (∀ (cfg : ResolvedConfig) (st : ClientState), getCsrfToken cfg st none = none) ∧
    (∀ (cfg : ResolvedConfig) (st : ClientState) (b : Browser),
        (∀ c ∈ jsSplit ';' b.cookie, ¬ cookieNameOfFragment c = cfg.cookieNameOf) →
        getCsrfToken cfg st (some b) = st.csrfToken) ∧
    (∀ (cfg : ResolvedConfig) (st : ClientState) (b : Browser)
        (pre : List String) (c : String) (post : List String),
        jsSplit ';' b.cookie = pre ++ c :: post →
        (∀ c' ∈ pre, ¬ cookieNameOfFragment c' = cfg.cookieNameOf) →
        cookieNameOfFragment c = cfg.cookieNameOf →
        getCsrfToken cfg st (some b) =
          some (decodeURIComponentJs (cookieValueOfFragment c))) := by
  refine ⟨fun cfg st => rfl, ?_, ?_⟩
  · intro cfg st b h
    have hnone : (jsSplit ';' b.cookie).findSome? (fun c =>
        if cookieNameOfFragment c = cfg.cookieNameOf
        then some (decodeURIComponentJs (cookieValueOfFragment c))
        else none) = none :=
      findSome?_eq_none_of _ _ (fun c hc => if_neg (h c hc))
    simp only [getCsrfToken, hnone]
  · intro cfg st b pre c post hsplit hpre hc
    have hsome : (jsSplit ';' b.cookie).findSome? (fun c =>
        if cookieNameOfFragment c = cfg.cookieNameOf
        then some (decodeURIComponentJs (cookieValueOfFragment c))
        else none) = some (decodeURIComponentJs (cookieValueOfFragment c)) := by
      rw [hsplit]
      exact findSome?_append_first _ pre c post _
        (fun x hx => if_neg (hpre x hx)) (if_pos hc)
    simp only [getCsrfToken, hsome]

/-- Witness for `c10_cookie_parse_amended`: a cached token with no browser
yields null; the no-matching-cookie fixture returns the cached token; and
the fixture with an unrelated leading cookie and a percent-escaped CSRF
cookie decodes to `"q r"`. -/
theorem c10_cookie_parse_amended_witness :
    getCsrfToken cfgSessionFx { csrfToken := some "cached" } none = none ∧
    getCsrfToken cfgSessionFx { csrfToken := some "cached" } (some browserPlainFx) =
      some "cached" ∧
    getCsrfToken cfgSessionFx {} (some browserPctFx) = some "q r" :=
  ⟨c10_cookie_parse_amended.1 cfgSessionFx { csrfToken := some "cached" },
   c10_cookie_parse_amended.2.1 cfgSessionFx { csrfToken := some "cached" } browserPlainFx
      (by decide),
   (c10_cookie_parse_amended.2.2 cfgSessionFx {} browserPctFx ["a=1"] " XSRF-TOKEN=q%20r" []
      (by decide) (by decide) (by decide)).trans (by decide)⟩
